import Mathlib

/-!
Shallow embedding of the embedded-execution core of `inline-python`
(`src/context.rs`), together with a model of the parts of the embedded
Python runtime that the core drives: per-`Context` global dictionaries,
the `sys.stderr` stream used by the error-capture path, and the value
marshaler at the host/Python boundary.

Machine-level Python objects are modelled as follows:
- `PyValue` is an embedded value exchanged through the marshaler.
- a `PyDict` namespace is an association list from identifier to value;
  `getItem`/`setItem` model `dict.get_item`/`dict.set_item` (the `Err(_)`
  result of `get_item` is collapsed with `Ok(None)` exactly as the source
  does in `Context::get`).
- `Py<PyDict>` handles are indices into a `Heap` of dictionaries, so that
  aliasing (or its absence, claim about isolation) is expressible.
- the error-stream state (`sys.stderr`, the real stderr text, and the
  `io.StringIO` capture buffers) is an explicit `IOState` threaded through
  execution and through `py_err_to_string`.
-/

set_option autoImplicit false

namespace InlinePython

/-- An embedded Python value, as exchanged through the value marshaler. -/
inductive PyValue where
  | int : Int → PyValue
  | str : String → PyValue
  | bool : Bool → PyValue
  | none : PyValue
deriving DecidableEq, Repr

/-- A Python dict used as a namespace: a finite mapping from identifier to
value, represented as an association list (first binding wins). -/
abbrev Namespace := List (String × PyValue)

/-- `dict.get_item name`: the current binding of `name`, if any. -/
def getItem : Namespace → String → Option PyValue
  | [], _ => Option.none
  | (k, v) :: rest, name => if k = name then Option.some v else getItem rest name

/-- `dict.set_item name v`: bind `name` to `v`, overwriting an existing
binding and otherwise appending a new one. -/
def setItem : Namespace → String → PyValue → Namespace
  | [], name, v => [(name, v)]
  | (k, w) :: rest, name, v =>
    if k = name then (name, v) :: rest else (k, w) :: setItem rest name v

/-- Read a dictionary out of a store of dictionaries (missing index reads
as the empty dict). -/
def readList : List Namespace → Nat → Namespace
  | [], _ => []
  | d :: _, 0 => d
  | _ :: rest, n + 1 => readList rest n

/-- Write a dictionary into a store of dictionaries (missing index is a
no-op). -/
def writeList : List Namespace → Nat → Namespace → List Namespace
  | [], _, _ => []
  | _ :: rest, 0, ns => ns :: rest
  | d :: rest, n + 1, ns => d :: writeList rest n ns

/-- The interpreter's store of dict objects; a `Py<PyDict>` handle is an
index into it. -/
structure Heap where
  dicts : List Namespace
deriving DecidableEq

/-- Dereference a dict handle. -/
def Heap.read (h : Heap) (r : Nat) : Namespace := readList h.dicts r

/-- Update the dict behind a handle. -/
def Heap.write (h : Heap) (r : Nat) (ns : Namespace) : Heap := ⟨writeList h.dicts r ns⟩

/-- Allocate a fresh dict object (e.g. `dict.copy()`), returning its handle. -/
def Heap.alloc (h : Heap) (ns : Namespace) : Nat × Heap :=
  (h.dicts.length, ⟨h.dicts ++ [ns]⟩)

/-- What `sys.stderr` currently designates: the process's real stderr, or
an `io.StringIO` capture buffer. -/
inductive StderrTarget where
  | real : StderrTarget
  | buf : Nat → StderrTarget
deriving DecidableEq, Repr

/-- Read a capture buffer (missing index reads as empty). -/
def bufGet : List String → Nat → String
  | [], _ => ""
  | s :: _, 0 => s
  | _ :: rest, n + 1 => bufGet rest n

/-- Overwrite a capture buffer (missing index is a no-op). -/
def bufSet : List String → Nat → String → List String
  | [], _, _ => []
  | _ :: rest, 0, s => s :: rest
  | t :: rest, n + 1, s => t :: bufSet rest n s

/-- The embedded runtime's error-stream state: the object installed as
`sys.stderr`, the text accumulated on the real stderr, and the contents of
every allocated `io.StringIO` buffer. -/
structure IOState where
  sysStderr : StderrTarget
  realOut : String
  bufs : List String
deriving DecidableEq

/-- `io.StringIO()`: allocate a fresh, empty capture buffer and return its
handle. -/
def IOState.newCaptureBuf (io : IOState) : Nat × IOState :=
  (io.bufs.length, { io with bufs := io.bufs ++ [""] })

/-- Write `s` to whatever `sys.stderr` currently designates. -/
def IOState.writeStderr (io : IOState) (s : String) : IOState :=
  match io.sysStderr with
  | StderrTarget.real => { io with realOut := io.realOut ++ s }
  | StderrTarget.buf i => { io with bufs := bufSet io.bufs i (bufGet io.bufs i ++ s) }

/-- `stringio.getvalue()`: the text accumulated in capture buffer `i`. -/
def IOState.getvalue (io : IOState) (i : Nat) : String := bufGet io.bufs i

/-- An error raised by the embedded interpreter. `description` is the text
`err.to_string()` yields (the plain one-line description); `traceback` is
the extra traceback text the runtime's error printer emits before it. -/
structure PyErr where
  description : String
  traceback : String
deriving DecidableEq, Repr

/-- Modelled from the spec: the embedded runtime's error-formatting
capability (`format_error(RuntimeError) -> Text` with full traceback, spec
section 6). `PyErr::print` — implemented by the runtime, outside this
repository — writes the full traceback followed by the error's plain
description to the object currently installed as `sys.stderr`. -/
def formatPyErr (e : PyErr) : String := e.traceback ++ e.description

/-- Which of the fallible runtime steps of `py_err_to_string` fail:
`py.import("sys")`, building the `io.StringIO` capture buffer
(`py.import("io")?.getattr("StringIO")?.call0()?`), and reading back /
extracting its value (`call_method0("getvalue")?.extract()?`). Item access
on a dict with a string key never fails in the embedded runtime and is
modelled as total. -/
structure CaptureOracle where
  importSysFails : Bool
  stringIOFails : Bool
  getvalueFails : Bool
deriving DecidableEq, Repr

/-- `py_err_to_string` from `src/context.rs`: print the error while
capturing stderr into a string. Redirects `sys.stderr` into a fresh
`io.StringIO` buffer, has the runtime print the error with full traceback,
restores the original `sys.stderr`, and reads the buffer back. The
error value of a failing step is never inspected by the caller and is
modelled as `Unit`. -/
def py_err_to_string (o : CaptureOracle) (err : PyErr) (io : IOState) :
    Except Unit String × IOState :=
  if o.importSysFails then (Except.error (), io)
  else if o.stringIOFails then (Except.error (), io)
  else
    let p := io.newCaptureBuf
    let original := p.2.sysStderr
    let io2 := { p.2 with sysStderr := StderrTarget.buf p.1 }
    let io3 := io2.writeStderr (formatPyErr err)
    let io4 := { io3 with sysStderr := original }
    if o.getvalueFails then (Except.error (), io4)
    else (Except.ok (io4.getvalue p.1), io4)

/-- `panic_string` from `src/context.rs`: the diagnostic text handed to a
failure path — the captured error printout, or, when the capture itself
fails, the error's plain description (`err.to_string()`). -/
def panic_string (o : CaptureOracle) (err : PyErr) (io : IOState) : String × IOState :=
  match py_err_to_string o err io with
  | (Except.ok msg, io1) => (msg, io1)
  | (Except.error _, io1) => (err.description, io1)

/-- An execution context for Python code (`Context` in `src/context.rs`):
it owns the `Py<PyDict>` handle of its globals dict. -/
structure Context where
  globals : Nat
deriving DecidableEq, Repr

/-- `Context::try_new`: allocate the context's globals as a copy of the
`__main__` module's dict (`py.import("__main__")?.dict().copy()?`). -/
def Context.try_new (h : Heap) (mainRef : Nat) : Context × Heap :=
  let p := h.alloc (h.read mainRef)
  (⟨p.1⟩, p.2)

/-- The panic message of `Context::get` when the variable is absent
(or `get_item` errs): built exactly as the source's format string. -/
def missingVarMsg (name : String) : String :=
  "Python context does not contain a variable named `" ++ name ++ "`"

/-- The panic message of `Context::get` when extraction to the host type
fails: built exactly as the source's format string. -/
def convertFailMsg (name ty e : String) : String :=
  "Unable to convert `" ++ name ++ "` to `" ++ ty ++ "`: " ++ e

/-- The panic message of `Context::set` when conversion of the host value
fails: built exactly as the source's format string. -/
def setFailMsg (name ty e : String) : String :=
  "Unable to set `" ++ name ++ "` from a `" ++ ty ++ "`: " ++ e

/-- `Context::get`: read `name` from the globals dict and extract it to the
host type `T`. `ty` stands for `std::any::type_name::<T>()` and `extract`
for `FromPyObject::extract_bound` at `T`. A panic is modelled as
`Except.error` carrying the panic message. The heap is threaded through
and returned (the body performs no write). -/
def Context.get {T : Type} (c : Context) (h : Heap) (name ty : String)
    (extract : PyValue → Except String T) : Except String T × Heap :=
  (match getItem (h.read c.globals) name with
   | Option.none => Except.error (missingVarMsg name)
   | Option.some v =>
     match extract v with
     | Except.ok t => Except.ok t
     | Except.error e => Except.error (convertFailMsg name ty e),
   h)

/-- `Context::set`: convert the host value and bind it under `name` in the
globals dict. `ty` stands for `std::any::type_name::<T>()`; `value` is the
outcome of `IntoPyObject` conversion of the host value (performed inside
`set_item`, eagerly, before anything is stored). On conversion failure the
function panics (modelled as `Option.some` panic message) and the heap is
unchanged. -/
def Context.set (c : Context) (h : Heap) (name ty : String)
    (value : Except String PyValue) : Option String × Heap :=
  match value with
  | Except.ok v => (Option.none, h.write c.globals (setItem (h.read c.globals) name v))
  | Except.error e => (Option.some (setFailMsg name ty e), h)

/-- Modelled from the spec: a `PythonBlock` produced by the `python!`
macro front end (`lib.rs`/`run.rs`, not under `src/`). `set_vars` is the
generated binder closure writing the captured variables into the target
dict (`Option.some msg` models the closure panicking with `msg`, leaving
its partial writes in place); `bytecode` is the compiled payload as run by
`run_python_code`: executed against the namespace, it may mutate the
namespace, write to the currently installed error stream, and raise a
`PyErr` (partial mutations up to the raise persist, spec section 7). The
block's `panic` closure is not a field here: its invocation is observed
through `RunOutcome.reported`, which carries the string passed to it. -/
structure PythonBlock where
  set_vars : Namespace → Option String × Namespace
  bytecode : Namespace → IOState → Option PyErr × Namespace × IOState

/-- The observable outcome of `Context::run_with_gil`: normal return, a
panic raised by the `set_vars` binder closure (which unwinds before the
payload runs), or the block's `panic` closure invoked with a diagnostic. -/
inductive RunOutcome where
  | ok : RunOutcome
  | bindPanic : String → RunOutcome
  | reported : String → RunOutcome
deriving DecidableEq, Repr

/-- `Context::run_with_gil`: run the binder closure against the context's
globals, then execute the payload against them; on a payload error, invoke
the block's `panic` closure with `panic_string`. -/
def Context.run_with_gil (c : Context) (h : Heap) (o : CaptureOracle)
    (block : PythonBlock) (io : IOState) : RunOutcome × Heap × IOState :=
  match block.set_vars (h.read c.globals) with
  | (Option.some msg, ns1) => (RunOutcome.bindPanic msg, h.write c.globals ns1, io)
  | (Option.none, ns1) =>
    match block.bytecode ns1 io with
    | (Option.none, ns2, io2) =>
      (RunOutcome.ok, (h.write c.globals ns1).write c.globals ns2, io2)
    | (Option.some err, ns2, io2) =>
      (RunOutcome.reported (panic_string o err io2).1,
       (h.write c.globals ns1).write c.globals ns2,
       (panic_string o err io2).2)

/-- `Context::run`: acquires the GIL (`Python::with_gil`) and delegates to
`run_with_gil`; in this sequential embedding the acquisition itself has no
further observable content. -/
def Context.run (c : Context) (h : Heap) (o : CaptureOracle)
    (block : PythonBlock) (io : IOState) : RunOutcome × Heap × IOState :=
  c.run_with_gil h o block io

/-- The marshaler's extraction at the host integer types
(`FromPyObject` for `i32`/`i64`): succeeds exactly on an embedded int. -/
def extractInt : PyValue → Except String Int
  | PyValue.int n => Except.ok n
  | _ => Except.error "TypeError: expected int"

/-- `s` occurs contiguously inside `t` (used to state that a panic message
names a variable or a type). -/
abbrev containsStr (t s : String) : Prop := s.data <:+: t.data

/-! Basic lemmas about the dict, store, buffer and message helpers. -/

theorem containsStr_intro (t s : String) (p q : List Char)
    (heq : t.data = p ++ s.data ++ q) : containsStr t s :=
  ⟨p, q, heq.symm⟩

theorem containsStr_missingVarMsg (name : String) :
    containsStr (missingVarMsg name) name := by
  refine containsStr_intro _ _
    ("Python context does not contain a variable named `").data ("`").data ?_
  simp [missingVarMsg, String.data_append]

theorem containsStr_convertFailMsg_name (name ty e : String) :
    containsStr (convertFailMsg name ty e) name := by
  refine containsStr_intro _ _
    ("Unable to convert `").data (("` to `" ++ ty ++ "`: " ++ e)).data ?_
  simp [convertFailMsg, String.data_append]

theorem containsStr_convertFailMsg_ty (name ty e : String) :
    containsStr (convertFailMsg name ty e) ty := by
  refine containsStr_intro _ _
    (("Unable to convert `" ++ name ++ "` to `")).data (("`: " ++ e)).data ?_
  simp [convertFailMsg, String.data_append]

theorem containsStr_setFailMsg_name (name ty e : String) :
    containsStr (setFailMsg name ty e) name := by
  refine containsStr_intro _ _
    ("Unable to set `").data (("` from a `" ++ ty ++ "`: " ++ e)).data ?_
  simp [setFailMsg, String.data_append]

theorem containsStr_setFailMsg_ty (name ty e : String) :
    containsStr (setFailMsg name ty e) ty := by
  refine containsStr_intro _ _
    (("Unable to set `" ++ name ++ "` from a `")).data (("`: " ++ e)).data ?_
  simp [setFailMsg, String.data_append]

theorem getItem_setItem_self (ns : Namespace) (name : String) (v : PyValue) :
    getItem (setItem ns name v) name = Option.some v := by
  induction ns with
  | nil => simp [setItem, getItem]
  | cons kv rest ih =>
    obtain ⟨k, w⟩ := kv
    by_cases hk : k = name
    · simp [setItem, getItem, hk]
    · simp [setItem, getItem, hk, ih]

theorem getItem_setItem_other (ns : Namespace) (name y : String) (v : PyValue)
    (hy : y ≠ name) : getItem (setItem ns name v) y = getItem ns y := by
  induction ns with
  | nil => simp [setItem, getItem, Ne.symm hy]
  | cons kv rest ih =>
    obtain ⟨k, w⟩ := kv
    by_cases hk : k = name
    · subst hk
      simp [setItem, getItem, Ne.symm hy]
    · simp [setItem, getItem, hk, ih]

theorem readList_writeList_self (l : List Namespace) (r : Nat) (ns : Namespace) :
    readList (writeList l r ns) r = if r < l.length then ns else readList l r := by
  induction l generalizing r with
  | nil => simp [writeList, readList]
  | cons d rest ih =>
    cases r with
    | zero => simp [writeList, readList]
    | succ n => simpa [writeList, readList, Nat.succ_lt_succ_iff] using ih n

theorem readList_writeList_other (l : List Namespace) (r r' : Nat) (ns : Namespace)
    (hne : r' ≠ r) : readList (writeList l r ns) r' = readList l r' := by
  induction l generalizing r r' with
  | nil => simp [writeList]
  | cons d rest ih =>
    cases r with
    | zero =>
      cases r' with
      | zero => exact absurd rfl hne
      | succ m => simp [writeList, readList]
    | succ n =>
      cases r' with
      | zero => simp [writeList, readList]
      | succ m =>
        simp only [writeList, readList]
        exact ih n m (fun h => hne (by simp [h]))

theorem readList_append_lt (l m : List Namespace) (r : Nat) (hr : r < l.length) :
    readList (l ++ m) r = readList l r := by
  induction l generalizing r with
  | nil => simp at hr
  | cons d rest ih =>
    cases r with
    | zero => simp [readList]
    | succ n =>
      simp only [List.cons_append, readList]
      exact ih n (by simpa [Nat.succ_lt_succ_iff] using hr)

theorem readList_append_len (l : List Namespace) (ns : Namespace) :
    readList (l ++ [ns]) l.length = ns := by
  induction l with
  | nil => simp [readList]
  | cons d rest ih => simpa [readList] using ih

theorem bufGet_append_len (l : List String) (s : String) :
    bufGet (l ++ [s]) l.length = s := by
  induction l with
  | nil => simp [bufGet]
  | cons t rest ih => simpa [bufGet] using ih

theorem bufGet_bufSet_self (l : List String) (r : Nat) (s : String)
    (hr : r < l.length) : bufGet (bufSet l r s) r = s := by
  induction l generalizing r with
  | nil => simp at hr
  | cons t rest ih =>
    cases r with
    | zero => simp [bufSet, bufGet]
    | succ n =>
      simp only [bufSet, bufGet]
      exact ih n (by simpa [Nat.succ_lt_succ_iff] using hr)

theorem empty_append_str (s : String) : "" ++ s = s := by
  apply String.ext
  simp [String.data_append]

/-- On the success path (no runtime step of the capture fails), the
diagnostic is exactly the error printout captured in the fresh buffer. -/
theorem panic_string_ok (o : CaptureOracle) (err : PyErr) (io : IOState)
    (h1 : o.importSysFails = false) (h2 : o.stringIOFails = false)
    (h3 : o.getvalueFails = false) :
    (panic_string o err io).1 = formatPyErr err := by
  unfold panic_string py_err_to_string
  simp only [h1, h2, h3, Bool.false_eq_true, if_false,
    IOState.newCaptureBuf, IOState.writeStderr, IOState.getvalue]
  rw [bufGet_append_len]
  rw [bufGet_bufSet_self _ _ _ (by simp)]
  exact empty_append_str _

/-- Reading another handle after a write sees the old dict. -/
theorem Heap.read_write_other (h : Heap) (r r' : Nat) (ns : Namespace)
    (hne : r' ≠ r) : (h.write r ns).read r' = h.read r' :=
  readList_writeList_other _ _ _ _ hne

/-- Reading a valid handle after writing it sees the new dict. -/
theorem Heap.read_write_self (h : Heap) (r : Nat) (ns : Namespace)
    (hr : r < h.dicts.length) : (h.write r ns).read r = ns := by
  show readList (writeList h.dicts r ns) r = ns
  rw [readList_writeList_self]
  simp [hr]

/-! Concrete fixtures used by witnesses and counterexamples. -/

/-- A block in Context form (no captured variables, spec section 4.3)
whose payload executes `x = 5`. -/
def setsXTo5 : PythonBlock where
  set_vars := fun ns => (Option.none, ns)
  bytecode := fun ns io => (Option.none, setItem ns "x" (PyValue.int 5), io)

/-- A block in Context form whose payload asserts that `x` is bound to
`v`: it raises `e` exactly when the assertion fails and mutates nothing
(spec section 8, persistence property). -/
def assertBlock (x : String) (v : PyValue) (e : PyErr) : PythonBlock where
  set_vars := fun ns => (Option.none, ns)
  bytecode := fun ns io =>
    (if getItem ns x = Option.some v then Option.none else Option.some e, ns, io)

/-- A block whose binder closure panics (a captured variable failed to
convert), leaving the namespace as it was. -/
def bindFailBlock : PythonBlock where
  set_vars := fun ns => (Option.some "bind failed", ns)
  bytecode := fun ns io => (Option.none, ns, io)

/-- A block whose payload writes `"W"` to the currently installed error
stream and then raises an error with traceback `"T:"` and description
`"E"`. -/
def writesThenRaises : PythonBlock where
  set_vars := fun ns => (Option.none, ns)
  bytecode := fun ns io => (Option.some ⟨"E", "T:"⟩, ns, io.writeStderr "W")

/-- All fallible capture steps succeed. -/
def oZero : CaptureOracle := ⟨false, false, false⟩

/-- `py.import("sys")` fails during the capture. -/
def oImportFail : CaptureOracle := ⟨true, false, false⟩

/-- The initial stream state: `sys.stderr` is the real stderr, nothing
written yet, no capture buffers allocated. -/
def ioInit : IOState := ⟨StderrTarget.real, "", []⟩

/-- A sample interpreter error. -/
def pyErrSample : PyErr :=
  ⟨"ZeroDivisionError: division by zero", "Traceback (most recent call last): ...\n"⟩

/-! Claim theorems. -/

/-- Claim C3, counterexample: on a context whose namespace does not bind
`undefined_name`, `get::<i32>` fails with the message
"Python context does not contain a variable named `undefined_name`",
which names the variable but not the target type `i32`; this refutes "in
every failure the error message names the variable x and the target type
T". -/
theorem get_missing_var_message_lacks_type :
    (Context.get ⟨0⟩ ⟨[[]]⟩ "undefined_name" "i32" extractInt).1
      = Except.error (missingVarMsg "undefined_name")
    ∧ ¬ containsStr (missingVarMsg "undefined_name") "i32" :=
  ⟨rfl, by decide⟩

/-- Claim C3, amended: `get` fails exactly when the name is absent or the
conversion fails; every failure message names the variable, and the
conversion-failure message additionally names the target type (the
missing-variable message does not mention the type). -/
theorem get_failure_characterization (T : Type) (c : Context) (h : Heap)
    (name ty : String) (extract : PyValue → Except String T) :
    (∀ e, (c.get h name ty extract).1 = Except.error e → containsStr e name) ∧
    (getItem (h.read c.globals) name = Option.none →
      (c.get h name ty extract).1 = Except.error (missingVarMsg name)) ∧
    (∀ v e, getItem (h.read c.globals) name = Option.some v →
      extract v = Except.error e →
      (c.get h name ty extract).1 = Except.error (convertFailMsg name ty e) ∧
      containsStr (convertFailMsg name ty e) ty) ∧
    (∀ v t, getItem (h.read c.globals) name = Option.some v →
      extract v = Except.ok t → (c.get h name ty extract).1 = Except.ok t) := by
  refine ⟨?_, ?_, ?_, ?_⟩
  · intro e he
    cases hg : getItem (h.read c.globals) name with
    | none =>
      simp [Context.get, hg] at he
      exact he ▸ containsStr_missingVarMsg name
    | some v =>
      cases hx : extract v with
      | ok t => simp [Context.get, hg, hx] at he
      | error e2 =>
        simp [Context.get, hg, hx] at he
        exact he ▸ containsStr_convertFailMsg_name name ty e2
  · intro hg
    simp [Context.get, hg]
  · intro v e hg hx
    exact ⟨by simp [Context.get, hg, hx], containsStr_convertFailMsg_ty name ty e⟩
  · intro v t hg hx
    simp [Context.get, hg, hx]

/-- Claim C3, witness for the amended theorem: a conversion failure on a
bound variable produces the message naming both the variable and the
target type. -/
theorem get_failure_characterization_witness :
    (Context.get ⟨0⟩ ⟨[[("x", PyValue.str "s")]]⟩ "x" "i32" extractInt).1
      = Except.error (convertFailMsg "x" "i32" "TypeError: expected int")
    ∧ containsStr (convertFailMsg "x" "i32" "TypeError: expected int") "i32" :=
  (get_failure_characterization Int ⟨0⟩ ⟨[[("x", PyValue.str "s")]]⟩ "x" "i32"
    extractInt).2.2.1 (PyValue.str "s") "TypeError: expected int" rfl rfl

/-- Claim C6: a successful `set` overwrites the binding of `name` (no
panic; a subsequent lookup and a subsequent `get` both yield the new
value, whatever was bound before); a failed conversion panics with a
message naming the variable and the involved host type, leaving the heap
unchanged. -/
theorem set_overwrites_and_reports (c : Context) (h : Heap) (name ty : String)
    (v : PyValue) (e : String) (hg : c.globals < h.dicts.length) :
    (c.set h name ty (Except.ok v)).1 = Option.none ∧
    getItem (((c.set h name ty (Except.ok v)).2).read c.globals) name = Option.some v ∧
    (∀ (T : Type) (tyn : String) (ex : PyValue → Except String T) (t : T),
      ex v = Except.ok t →
      (Context.get c ((c.set h name ty (Except.ok v)).2) name tyn ex).1 = Except.ok t) ∧
    (c.set h name ty (Except.error e)) = (Option.some (setFailMsg name ty e), h) ∧
    containsStr (setFailMsg name ty e) name ∧ containsStr (setFailMsg name ty e) ty := by
  have hrw : ((c.set h name ty (Except.ok v)).2).read c.globals
      = setItem (h.read c.globals) name v := by
    simp [Context.set, Heap.read, Heap.write, readList_writeList_self, hg]
  refine ⟨rfl, ?_, ?_, rfl, containsStr_setFailMsg_name name ty e,
    containsStr_setFailMsg_ty name ty e⟩
  · rw [hrw, getItem_setItem_self]
  · intro T tyn ex t hex
    simp [Context.get, hrw, getItem_setItem_self, hex]

/-- Claim C6, witness: setting `x := 7` over an empty namespace makes the
binding visible. -/
theorem set_overwrites_and_reports_witness :
    getItem (((Context.set ⟨0⟩ ⟨[[]]⟩ "x" "i32" (Except.ok (PyValue.int 7))).2).read 0) "x"
      = Option.some (PyValue.int 7) :=
  (set_overwrites_and_reports ⟨0⟩ ⟨[[]]⟩ "x" "i32" (PyValue.int 7) "oops"
    (by decide)).2.1

/-- Claim C10: `get` leaves the heap — hence every binding — unchanged,
and `set` changes at most the binding of `name`: under any other name the
binding is what it was, whether the conversion succeeded or failed. -/
theorem get_set_frame (T : Type) (c : Context) (h : Heap) (name ty y : String)
    (ex : PyValue → Except String T) (value : Except String PyValue)
    (hy : y ≠ name) :
    (c.get h name ty ex).2 = h ∧
    getItem (((c.set h name ty value).2).read c.globals) y
      = getItem (h.read c.globals) y := by
  refine ⟨rfl, ?_⟩
  cases value with
  | error e => rfl
  | ok v =>
    by_cases hg : c.globals < h.dicts.length
    · simp [Context.set, Heap.read, Heap.write, readList_writeList_self, hg,
        getItem_setItem_other _ _ _ _ hy]
    · simp [Context.set, Heap.read, Heap.write, readList_writeList_self, hg]

/-- Claim C10, witness: setting `x` leaves the binding of `y` unchanged,
and `get` returns the heap it was given. -/
theorem get_set_frame_witness :
    (Context.get ⟨0⟩ ⟨[[("y", PyValue.int 1)]]⟩ "x" "i32" extractInt).2
      = (⟨[[("y", PyValue.int 1)]]⟩ : Heap) ∧
    getItem (((Context.set ⟨0⟩ ⟨[[("y", PyValue.int 1)]]⟩ "x" "i32"
        (Except.ok (PyValue.int 2))).2).read 0) "y"
      = getItem ((⟨[[("y", PyValue.int 1)]]⟩ : Heap).read 0) "y" :=
  get_set_frame Int ⟨0⟩ ⟨[[("y", PyValue.int 1)]]⟩ "x" "i32" "y" extractInt
    (Except.ok (PyValue.int 2)) (by decide)

/-- Claim C8: whatever the outcome of building the diagnostic, the object
installed as `sys.stderr` afterwards is the one that was installed before
the capture began — the temporary redirection into the capture buffer is
not observable afterwards. -/
theorem stderr_restored_after_diagnostic (o : CaptureOracle) (err : PyErr)
    (io : IOState) : ((panic_string o err io).2).sysStderr = io.sysStderr := by
  cases h1 : o.importSysFails <;> cases h2 : o.stringIOFails <;>
    cases h3 : o.getvalueFails <;>
      simp [panic_string, py_err_to_string, h1, h2, h3,
        IOState.newCaptureBuf, IOState.writeStderr]

/-- Claim C7: if the stderr capture fails at any step, the diagnostic
falls back to the error's plain description; in every case the failure
path receives some diagnostic text — the captured error printout or the
plain description — never a secondary capture error. -/
theorem diagnostic_fallback_on_capture_failure (o : CaptureOracle) (err : PyErr)
    (io : IOState) :
    ((py_err_to_string o err io).1 = Except.error () →
      (panic_string o err io).1 = err.description) ∧
    ((panic_string o err io).1 = formatPyErr err ∨
      (panic_string o err io).1 = err.description) := by
  constructor
  · intro hf
    unfold panic_string
    cases hpe : py_err_to_string o err io with
    | mk r io1 =>
      cases r with
      | ok m => rw [hpe] at hf; simp at hf
      | error u => simp
  · by_cases h1 : o.importSysFails = true
    · right; simp [panic_string, py_err_to_string, h1]
    · by_cases h2 : o.stringIOFails = true
      · right; simp [panic_string, py_err_to_string, h1, h2]
      · by_cases h3 : o.getvalueFails = true
        · right
          simp [panic_string, py_err_to_string,
            Bool.not_eq_true _ ▸ h1, Bool.not_eq_true _ ▸ h2, h3]
        · left
          exact panic_string_ok o err io (Bool.not_eq_true _ |>.mp h1)
            (Bool.not_eq_true _ |>.mp h2) (Bool.not_eq_true _ |>.mp h3)

/-- Claim C7, witness: when importing `sys` fails, the failure path still
receives the error's plain description. -/
theorem diagnostic_fallback_witness :
    (panic_string oImportFail pyErrSample ioInit).1 = pyErrSample.description :=
  (diagnostic_fallback_on_capture_failure oImportFail pyErrSample ioInit).1 rfl

/-- Running an assertion block succeeds on any heap whose context dict
binds `x` to `v`. -/
theorem assertBlock_run_ok (c : Context) (H : Heap) (o2 : CaptureOracle)
    (io' : IOState) (x : String) (v : PyValue) (e : PyErr)
    (hx : getItem (H.read c.globals) x = Option.some v) :
    (Context.run_with_gil c H o2 (assertBlock x v e) io').1 = RunOutcome.ok := by
  simp [Context.run_with_gil, assertBlock, hx]

/-- Claim C1: if a run on a Context leaves `x` bound to `v` in the
Context's globals, then a subsequent `get` on the same Context returns
`v` (converted), and a later run on the same Context of a block asserting
`x == v` succeeds without re-setting `x` — the run's mutations persist in
the Context's namespace. -/
theorem run_mutation_persists (T : Type) (c : Context) (h : Heap)
    (o o2 : CaptureOracle) (block : PythonBlock) (io : IOState) (x ty : String)
    (v : PyValue) (ex : PyValue → Except String T) (t : T) (e : PyErr)
    (_hok : (c.run_with_gil h o block io).1 = RunOutcome.ok)
    (hx : getItem (((c.run_with_gil h o block io).2.1).read c.globals) x
      = Option.some v)
    (hex : ex v = Except.ok t) :
    ((Context.get c ((c.run_with_gil h o block io).2.1) x ty ex).1 = Except.ok t) ∧
    ((Context.run_with_gil c ((c.run_with_gil h o block io).2.1) o2
        (assertBlock x v e) ((c.run_with_gil h o block io).2.2)).1
      = RunOutcome.ok) := by
  constructor
  · simp [Context.get, hx, hex]
  · exact assertBlock_run_ok c _ o2 _ x v e hx

/-- Claim C1, witness: running `x = 5` on a fresh Context, then
`get::<i64>("x")` returns 5 and a second run asserting `x == 5`
succeeds. -/
theorem run_mutation_persists_witness :
    ((Context.get ⟨0⟩ ((Context.run_with_gil ⟨0⟩ ⟨[[]]⟩ oZero setsXTo5 ioInit).2.1)
        "x" "i64" extractInt).1 = Except.ok 5) ∧
    ((Context.run_with_gil ⟨0⟩
        ((Context.run_with_gil ⟨0⟩ ⟨[[]]⟩ oZero setsXTo5 ioInit).2.1) oZero
        (assertBlock "x" (PyValue.int 5) pyErrSample)
        ((Context.run_with_gil ⟨0⟩ ⟨[[]]⟩ oZero setsXTo5 ioInit).2.2)).1
      = RunOutcome.ok) :=
  run_mutation_persists Int ⟨0⟩ ⟨[[]]⟩ oZero oZero setsXTo5 ioInit "x" "i64"
    (PyValue.int 5) extractInt 5 pyErrSample (by decide) (by decide) rfl

/-- Claim C2: the binder closure runs strictly before the payload — if it
panics, `run_with_gil` ends in that panic with the payload never executed
and the diagnostic machinery untouched (the stream state is returned
unchanged and the heap holds only the binder's writes); and the block's
failure handler is invoked only when the binder succeeded and the
payload's own execution raised. -/
theorem bind_precedes_execution (c : Context) (h : Heap) (o : CaptureOracle)
    (block : PythonBlock) (io : IOState) :
    (∀ m, (block.set_vars (h.read c.globals)).1 = Option.some m →
      c.run_with_gil h o block io
        = (RunOutcome.bindPanic m,
           h.write c.globals (block.set_vars (h.read c.globals)).2, io)) ∧
    (∀ msg, (c.run_with_gil h o block io).1 = RunOutcome.reported msg →
      (block.set_vars (h.read c.globals)).1 = Option.none ∧
      ((block.bytecode (block.set_vars (h.read c.globals)).2 io).1).isSome) := by
  cases hsv : block.set_vars (h.read c.globals) with
  | mk mo ns1 =>
    constructor
    · intro m hm
      simp at hm
      subst hm
      simp [Context.run_with_gil, hsv]
    · intro msg hr
      cases mo with
      | some m => simp [Context.run_with_gil, hsv] at hr
      | none =>
        cases hbc : block.bytecode ns1 io with
        | mk eo rest =>
          cases eo with
          | none => simp [Context.run_with_gil, hsv, hbc] at hr
          | some err => simp [hsv, hbc]

/-- Claim C2, witness: a block whose binder panics ends the run in that
panic, with the stream state untouched and the payload never run. -/
theorem bind_precedes_execution_witness :
    Context.run_with_gil ⟨0⟩ ⟨[[]]⟩ oZero bindFailBlock ioInit
      = (RunOutcome.bindPanic "bind failed",
         Heap.write ⟨[[]]⟩ 0 (bindFailBlock.set_vars (Heap.read ⟨[[]]⟩ 0)).2,
         ioInit) :=
  (bind_precedes_execution ⟨0⟩ ⟨[[]]⟩ oZero bindFailBlock ioInit).1 "bind failed" rfl

/-- Claim C4, counterexample: a payload writes `"W"` to the error stream
and then raises an error printed as `"T:E"`; the run's Diagnostic is
`"T:E"`, the text `"W"` went to the stream installed during execution
(the real stderr), and the Diagnostic does not contain `"W"` — refuting
"the Diagnostic contains the embedded error's description plus the text
the failing execution wrote to its error stream". -/
theorem diagnostic_omits_execution_stderr :
    ((Context.run_with_gil ⟨0⟩ ⟨[[]]⟩ oZero writesThenRaises ioInit).1
      = RunOutcome.reported (formatPyErr ⟨"E", "T:"⟩))
    ∧ ((Context.run_with_gil ⟨0⟩ ⟨[[]]⟩ oZero writesThenRaises ioInit).2.2).realOut = "W"
    ∧ ¬ containsStr (formatPyErr ⟨"E", "T:"⟩) "W" := by
  refine ⟨by decide, by decide, by decide⟩

/-- Claim C4, amended: the Diagnostic handed to the block's failure
handler is the runtime error printer's output — full traceback followed by
the error's description — captured via a fresh buffer; it contains the
error's description, and it is a function of the error alone, independent
of all prior stream contents (hence contains nothing from unrelated prior
executions); text the failing execution itself wrote to the error stream
is not part of it (it went to the stream installed during execution). -/
theorem diagnostic_is_fresh_error_printout (c : Context) (h : Heap)
    (o : CaptureOracle) (block : PythonBlock) (io : IOState) (ns1 ns2 : Namespace)
    (err : PyErr) (io2 : IOState)
    (hsv : block.set_vars (h.read c.globals) = (Option.none, ns1))
    (hbc : block.bytecode ns1 io = (Option.some err, ns2, io2))
    (h1 : o.importSysFails = false) (h2 : o.stringIOFails = false)
    (h3 : o.getvalueFails = false) :
    (c.run_with_gil h o block io).1 = RunOutcome.reported (formatPyErr err) ∧
    containsStr (formatPyErr err) err.description ∧
    (∀ io3 : IOState, (panic_string o err io3).1 = formatPyErr err) := by
  refine ⟨?_, ?_, ?_⟩
  · simp [Context.run_with_gil, hsv, hbc, panic_string_ok o err io2 h1 h2 h3]
  · exact containsStr_intro _ _ err.traceback.data []
      (by simp [formatPyErr, String.data_append])
  · intro io3
    exact panic_string_ok o err io3 h1 h2 h3

/-- Claim C4, witness for the amended theorem, at the concrete failing
block. -/
theorem diagnostic_is_fresh_error_printout_witness :
    (Context.run_with_gil ⟨0⟩ ⟨[[]]⟩ oZero writesThenRaises ioInit).1
      = RunOutcome.reported (formatPyErr ⟨"E", "T:"⟩) ∧
    containsStr (formatPyErr ⟨"E", "T:"⟩) (PyErr.description ⟨"E", "T:"⟩) ∧
    (∀ io3 : IOState, (panic_string oZero ⟨"E", "T:"⟩ io3).1 = formatPyErr ⟨"E", "T:"⟩) :=
  diagnostic_is_fresh_error_printout ⟨0⟩ ⟨[[]]⟩ oZero writesThenRaises ioInit
    [] [] ⟨"E", "T:"⟩ (ioInit.writeStderr "W") rfl rfl rfl rfl rfl

/-- Claim C5: two Contexts created independently (each copying the
`__main__` dict) hold distinct, never-aliased namespace handles: for a
name not bound in `__main__`, setting it in Context A is not observable
from Context B — B's `get` fails with the missing-name message. -/
theorem context_isolation (h : Heap) (mainRef : Nat) (x ty ty2 : String)
    (v : PyValue) (T : Type) (ex : PyValue → Except String T)
    (hmain : mainRef < h.dicts.length)
    (hx : getItem (h.read mainRef) x = Option.none) :
    (((Context.try_new h mainRef).1).globals
      ≠ ((Context.try_new (Context.try_new h mainRef).2 mainRef).1).globals) ∧
    (((Context.try_new (Context.try_new h mainRef).2 mainRef).1).get
        ((((Context.try_new h mainRef).1).set
          (Context.try_new (Context.try_new h mainRef).2 mainRef).2 x ty
          (Except.ok v)).2)
        x ty2 ex).1 = Except.error (missingVarMsg x) := by
  have hm1 : Heap.read (Context.try_new h mainRef).2 mainRef = h.read mainRef := by
    show readList (h.dicts ++ [h.read mainRef]) mainRef = h.read mainRef
    exact readList_append_lt _ _ _ hmain
  have hBg : ((Context.try_new (Context.try_new h mainRef).2 mainRef).1).globals
      = h.dicts.length + 1 := by
    show ((Context.try_new h mainRef).2).dicts.length = h.dicts.length + 1
    show (h.dicts ++ [h.read mainRef]).length = h.dicts.length + 1
    simp
  have hreadB : ((Context.try_new (Context.try_new h mainRef).2 mainRef).2).read
      (h.dicts.length + 1) = h.read mainRef := by
    show readList ((h.dicts ++ [h.read mainRef])
        ++ [Heap.read (Context.try_new h mainRef).2 mainRef]) (h.dicts.length + 1)
      = h.read mainRef
    rw [hm1]
    have hlen : (h.dicts ++ [h.read mainRef]).length = h.dicts.length + 1 := by simp
    rw [← hlen]
    exact readList_append_len _ _
  constructor
  · rw [hBg]
    show h.dicts.length ≠ h.dicts.length + 1
    omega
  · have hset : ((((Context.try_new h mainRef).1).set
          (Context.try_new (Context.try_new h mainRef).2 mainRef).2 x ty
          (Except.ok v)).2).read (h.dicts.length + 1)
        = h.read mainRef := by
      rw [show ((((Context.try_new h mainRef).1).set
            (Context.try_new (Context.try_new h mainRef).2 mainRef).2 x ty
            (Except.ok v)).2)
          = ((Context.try_new (Context.try_new h mainRef).2 mainRef).2).write
              h.dicts.length
              (setItem (((Context.try_new (Context.try_new h mainRef).2
                mainRef).2).read h.dicts.length) x v) from rfl]
      rw [Heap.read_write_other _ _ _ _ (by omega)]
      exact hreadB
    simp [Context.get, hBg, hset, hx]

/-- Claim C5, witness: with `__main__` empty, setting `x` in the first
fresh Context is invisible to the second one. -/
theorem context_isolation_witness :
    (((Context.try_new (Context.try_new ⟨[[]]⟩ 0).2 0).1).get
        ((((Context.try_new ⟨[[]]⟩ 0).1).set
          (Context.try_new (Context.try_new ⟨[[]]⟩ 0).2 0).2 "x" "i32"
          (Except.ok (PyValue.int 1))).2)
        "x" "i32" extractInt).1 = Except.error (missingVarMsg "x") :=
  (context_isolation ⟨[[]]⟩ 0 "x" "i32" "i32" (PyValue.int 1) Int extractInt
    (by decide) rfl).2

end InlinePython
